import Mathlib

/-
Verification of the preference-triplet extraction logic of
`src/dpo-align-llms-with-TRL.ipynb`, the only original code in the
repository: `rec_extract_assistant_messages` (a recursive backward scan
for the last assistant turn, using Python negative indexing) and
`create_triplets` (the prompt/chosen/rejected triplet builder).

The notebook's `tokenizer.apply_chat_template` rendering is the external
opaque formatter of spec section 6 and stays out of scope: triplets are
modelled at the message level, exactly as the spec's data model does.
-/

namespace DPOTriplets

/-- A chat message, the dict `{"role": ..., "content": ...}`. -/
structure Message where
  role : String
  content : String
deriving DecidableEq, Repr

/-- Failure modes.  `keyError` and `indexError` are the Python exceptions
the notebook code can actually raise (`example[k]` on a missing key,
`messages[i]` out of bounds).  `malformedConversationError` and
`missingFieldError` are the named errors of the specification (section 7);
they are included so that claims about them are statable, but no function
embedded from the source ever produces them. -/
inductive DataErr where
  | keyError (key : String)
  | indexError
  | malformedConversationError
  | missingFieldError
deriving DecidableEq, Repr

/-- Python list indexing `messages[i]`, including negative-index support:
a negative `i` addresses position `len + i`; any index outside
`[-len, len)` is an out-of-bounds access (`none`, i.e. `IndexError`). -/
def pyGet (msgs : List Message) (i : Int) : Option Message :=
  if 0 ≤ i then msgs.get? i.toNat
  else
    let j : Int := (msgs.length : Int) + i
    if 0 ≤ j then msgs.get? j.toNat else none

/-- Auxiliary recursion for `rec_extract_assistant_messages`.  The Python
function recurses on `index - 1` starting from `index = -1`; the fuel
`k + 1` corresponds to Python index `i = k - len` (i.e. position `k`),
so the initial call `index = -1` starts at fuel `len`, and fuel `0`
corresponds to the exhausted index `-(len + 1)`, where Python's
`messages[index]` raises `IndexError`. -/
def recExtractAux (messages : List Message) : Nat → Except DataErr (List Message)
  | 0 => .error .indexError
  | k + 1 =>
    match pyGet messages ((k : Int) - (messages.length : Int)) with
    | none => .error .indexError
    | some m =>
      if m.role = "assistant" then .ok [m]
      else recExtractAux messages k

/-- Embeds `rec_extract_assistant_messages(messages, index)` from the
notebook:

```python
def rec_extract_assistant_messages(messages, index=-1):
  if messages[index]["role"] == "assistant":
    return [messages[index]]
  else:
    return rec_extract_assistant_messages(messages, index-1)
```

The notebook only ever calls it with the default `index = -1`. -/
def rec_extract_assistant_messages (messages : List Message) (index : Int) :
    Except DataErr (List Message) :=
  recExtractAux messages (((messages.length : Int) + index + 1).toNat)

/-- Modelled from the spec (section 4.1, operation
`extract_last_assistant_message`): "scans from the end of the sequence
backward until it finds the first Message whose role is assistant".
Spec-side definition used to state the refinement claims. -/
def extract_last_assistant_message_spec (conversation : List Message) : Option Message :=
  conversation.reverse.find? (fun m => m.role == "assistant")

/-- The default system message of the notebook. -/
def DEFAULT_SYSTEM_MESSAGE : String := "You are Dolphin, a helpful AI assistant."

/-- `pyGet` succeeding at position `k - len` for `k < len` reads entry `k`. -/
theorem pyGet_sub_length (messages : List Message) (k : Nat) (hk : k < messages.length) :
    pyGet messages ((k : Int) - (messages.length : Int)) = messages.get? k := by
  unfold pyGet
  have h1 : ¬ (0 ≤ (k : Int) - (messages.length : Int)) := by omega
  rw [if_neg h1]
  have h2 : (0 : Int) ≤ (messages.length : Int) + ((k : Int) - (messages.length : Int)) := by
    omega
  rw [if_pos h2]
  congr 1
  omega

/-- The backward scan over the first `k` entries agrees with `find?` on the
reversed `k`-entry prefix: it returns the assistant message closest to the
end, and an out-of-bounds `IndexError` when none exists. -/
theorem recExtractAux_eq_find (messages : List Message) (k : Nat)
    (hk : k ≤ messages.length) :
    recExtractAux messages k =
      match (messages.take k).reverse.find? (fun m => m.role == "assistant") with
      | some m => .ok [m]
      | none => .error .indexError := by
  induction k with
  | zero => simp [recExtractAux]
  | succ k ih =>
    have hklt : k < messages.length := hk
    obtain ⟨m, hm⟩ : ∃ m, messages.get? k = some m := by
      exact ⟨messages.get ⟨k, hklt⟩, List.get?_eq_get hklt⟩
    have hget : pyGet messages ((k : Int) - (messages.length : Int)) = some m := by
      rw [pyGet_sub_length messages k hklt, hm]
    have htake : (messages.take (k + 1)).reverse =
        m :: (messages.take k).reverse := by
      rw [List.take_succ, ← List.get?_eq_getElem?, hm]
      simp
    rw [recExtractAux, hget]
    simp only [htake]
    by_cases hrole : m.role = "assistant"
    · rw [if_pos hrole, List.find?_cons_of_pos _ (by simpa using hrole)]
    · rw [if_neg hrole, List.find?_cons_of_neg _ (by simpa using hrole),
        ih (le_of_lt hklt)]

/-- The source extractor, called as in the notebook (`index = -1`), agrees
with the spec-side backward scan, failing with an `IndexError` when no
assistant message exists. -/
theorem rec_extract_eq_find (messages : List Message) :
    rec_extract_assistant_messages messages (-1) =
      match extract_last_assistant_message_spec messages with
      | some m => .ok [m]
      | none => .error .indexError := by
  have h : (((messages.length : Int) + (-1) + 1)).toNat = messages.length := by omega
  rw [rec_extract_assistant_messages, h,
    recExtractAux_eq_find messages messages.length le_rfl, List.take_length]
  rfl

/-- If the last entry of the conversation is an assistant message, the
backward scan returns it immediately. -/
theorem rec_extract_getLast (messages : List Message) (m : Message)
    (h : messages.getLast? = some m) (hrole : m.role = "assistant") :
    rec_extract_assistant_messages messages (-1) = .ok [m] := by
  rw [rec_extract_eq_find]
  have hrev : messages.reverse.head? = some m := by
    rw [List.head?_reverse]; exact h
  cases hr : messages.reverse with
  | nil => rw [hr] at hrev; cases hrev
  | cons a l =>
    rw [hr] at hrev
    have ha : a = m := by cases hrev; rfl
    subst ha
    unfold extract_last_assistant_message_spec
    rw [hr, List.find?_cons_of_pos _ (by simpa using hrole)]

/-- A successful extraction implies some assistant message is present. -/
theorem exists_assistant_of_rec_extract_ok (messages : List Message)
    (ms : List Message) (h : rec_extract_assistant_messages messages (-1) = .ok ms) :
    ∃ m ∈ messages, m.role = "assistant" := by
  rw [rec_extract_eq_find] at h
  cases hf : extract_last_assistant_message_spec messages with
  | none => rw [hf] at h; cases h
  | some m =>
    refine ⟨m, ?_, ?_⟩
    · have := List.mem_of_find?_eq_some hf
      exact List.mem_reverse.mp this
    · have := List.find?_some hf
      simpa using this

/-- A (prompt, chosen, rejected) triplet at the message level.  `chosen` and
`rejected` are the singleton lists returned by the extractor, exactly as in
the source; the external chat-template rendering is out of scope. -/
structure Triplet where
  prompt : List Message
  chosen : List Message
  rejected : List Message
deriving DecidableEq, Repr

/-- A labeled example: a dict that may or may not carry the "chosen" and
"rejected" keys (absence models a missing key, i.e. `KeyError` on access). -/
structure Example where
  chosen? : Option (List Message)
  rejected? : Option (List Message)
deriving DecidableEq, Repr

/-- Python dict access `example[key]`: `KeyError` when the key is absent. -/
def pyGetKey (field : Option (List Message)) (key : String) :
    Except DataErr (List Message) :=
  match field with
  | some v => .ok v
  | none => .error (.keyError key)

/-- Python indexing as an expression, `messages[i]`: `IndexError` when out
of bounds. -/
def pyIndex (msgs : List Message) (i : Int) : Except DataErr Message :=
  match pyGet msgs i with
  | some m => .ok m
  | none => .error .indexError

/-- Embeds `create_triplets(example, tokenizer, default_system_message)`
from the notebook, at the message level:

```python
def create_triplets(example, tokenizer, default_system_message=DEFAULT_SYSTEM_MESSAGE):
  prompt_messages = example["chosen"][:-1]
  if example["chosen"][0]["role"] != "system":
      prompt_messages.insert(0, {"role": "system", "content": default_system_message})
  chosen_messages = rec_extract_assistant_messages(example["chosen"])
  rejected_messages = rec_extract_assistant_messages(example["rejected"])
  return {"prompt": ..., "chosen": ..., "rejected": ...}
```

Evaluation order follows the source: the "chosen" lookup, then
`example["chosen"][0]`, then the extraction on "chosen", then the
"rejected" lookup and its extraction.  Each Python exception propagates as
an `Except.error`; `[:-1]` is `dropLast` (never fails) and
`.insert(0, x)` on the fresh slice is a cons. -/
def create_triplets (ex : Example) (default_system_message : String) :
    Except DataErr Triplet :=
  match pyGetKey ex.chosen? "chosen" with
  | .error e => .error e
  | .ok chosen =>
    let prompt0 := chosen.dropLast
    match pyIndex chosen 0 with
    | .error e => .error e
    | .ok first =>
      let prompt_messages :=
        if first.role ≠ "system" then ⟨"system", default_system_message⟩ :: prompt0
        else prompt0
      match rec_extract_assistant_messages chosen (-1) with
      | .error e => .error e
      | .ok chosen_messages =>
        match pyGetKey ex.rejected? "rejected" with
        | .error e => .error e
        | .ok rejected =>
          match rec_extract_assistant_messages rejected (-1) with
          | .error e => .error e
          | .ok rejected_messages =>
            .ok ⟨prompt_messages, chosen_messages, rejected_messages⟩

/-- `pyIndex` at `0` reads the head of the list. -/
theorem pyIndex_zero (msgs : List Message) :
    pyIndex msgs 0 =
      match msgs.head? with
      | some m => .ok m
      | none => .error .indexError := by
  cases msgs <;> rfl

/-- Characterization of a successful `create_triplets` run: both keys are
present, the chosen conversation is non-empty, both extractions succeed,
and the prompt is the chosen conversation minus its last message, with the
default system message prepended exactly when the first message of the
chosen conversation is not a system message. -/
theorem create_triplets_ok_iff (ex : Example) (d : String) (t : Triplet) :
    create_triplets ex d = .ok t ↔
      ∃ cs rs c0, ex.chosen? = some cs ∧ ex.rejected? = some rs ∧
        cs.head? = some c0 ∧
        rec_extract_assistant_messages cs (-1) = .ok t.chosen ∧
        rec_extract_assistant_messages rs (-1) = .ok t.rejected ∧
        t.prompt = (if c0.role ≠ "system" then (⟨"system", d⟩ : Message) :: cs.dropLast
          else cs.dropLast) := by
  constructor
  · intro h
    unfold create_triplets at h
    cases hch : ex.chosen? with
    | none => rw [hch] at h; simp [pyGetKey] at h
    | some cs =>
      rw [hch] at h
      simp only [pyGetKey] at h
      rw [pyIndex_zero] at h
      cases hc0 : cs.head? with
      | none => rw [hc0] at h; cases h
      | some c0 =>
        rw [hc0] at h
        cases hce : rec_extract_assistant_messages cs (-1) with
        | error e => rw [hce] at h; cases h
        | ok cms =>
          rw [hce] at h
          cases hrj : ex.rejected? with
          | none => rw [hrj] at h; simp [pyGetKey] at h
          | some rs =>
            rw [hrj] at h
            simp only [pyGetKey] at h
            cases hre : rec_extract_assistant_messages rs (-1) with
            | error e => rw [hre] at h; cases h
            | ok rms =>
              rw [hre] at h
              cases h
              exact ⟨cs, rs, c0, rfl, rfl, hc0, hce, hre, rfl⟩
  · rintro ⟨cs, rs, c0, hch, hrj, hc0, hce, hre, hp⟩
    obtain ⟨tp, tc, tr⟩ := t
    dsimp only at hce hre hp
    subst hp
    unfold create_triplets
    rw [hch]
    simp only [pyGetKey]
    rw [pyIndex_zero, hc0, hce, hrj]
    simp only [pyGetKey]
    rw [hre]

/-- A heap of Python list objects, for stating that `create_triplets`
mutates no global state: cells are addressed by natural-number references,
`next` is the next fresh address (all live references lie below it). -/
structure Store where
  mem : Nat → List Message
  next : Nat

/-- Read the list object at reference `r`. -/
def Store.read (s : Store) (r : Nat) : List Message := s.mem r

/-- Allocate a fresh list object holding `v`; returns the new store and the
fresh reference. -/
def Store.alloc (s : Store) (v : List Message) : Store × Nat :=
  (⟨fun x => if x = s.next then v else s.mem x, s.next + 1⟩, s.next)

/-- Overwrite the list object at reference `r` (in-place mutation). -/
def Store.write (s : Store) (r : Nat) (v : List Message) : Store :=
  ⟨fun x => if x = r then v else s.mem x, s.next⟩

/-- Stateful rendering of `create_triplets`, following the source's actual
memory behaviour: the example dict holds references into the store
(`none` models a missing key), the slice `example["chosen"][:-1]` allocates
a fresh list object, and `prompt_messages.insert(0, ...)` mutates that
fresh object in place.  Returns the result together with the post-state. -/
def create_triplets_state (s0 : Store) (chosenRef rejectedRef : Option Nat)
    (d : String) : Except DataErr Triplet × Store :=
  match chosenRef with
  | none => (.error (.keyError "chosen"), s0)
  | some cr =>
    let ap := s0.alloc ((s0.read cr).dropLast)
    let s1 := ap.1
    let pr := ap.2
    match pyGet (s1.read cr) 0 with
    | none => (.error .indexError, s1)
    | some first =>
      let s2 := if first.role ≠ "system"
        then s1.write pr ((⟨"system", d⟩ : Message) :: s1.read pr)
        else s1
      match rec_extract_assistant_messages (s2.read cr) (-1) with
      | .error e => (.error e, s2)
      | .ok chosen_messages =>
        match rejectedRef with
        | none => (.error (.keyError "rejected"), s2)
        | some rr =>
          match rec_extract_assistant_messages (s2.read rr) (-1) with
          | .error e => (.error e, s2)
          | .ok rejected_messages =>
            (.ok ⟨s2.read pr, chosen_messages, rejected_messages⟩, s2)

/-- `pyGet` at index `0` reads the head of the list. -/
theorem pyGet_zero (msgs : List Message) : pyGet msgs 0 = msgs.head? := by
  cases msgs <;> rfl

/-- Claim C1: for every conversation containing at least one assistant
message, `rec_extract_assistant_messages` (invoked as in the notebook,
with the default index `-1`) returns, as the source's singleton list, the
assistant message closest to the end of the conversation — the first
message with role "assistant" found scanning backward from the last
message, as computed by the spec-side backward scan. -/
theorem rec_extract_returns_last_assistant (messages : List Message) (m : Message)
    (h : extract_last_assistant_message_spec messages = some m) :
    rec_extract_assistant_messages messages (-1) = .ok [m] := by
  rw [rec_extract_eq_find, h]

/-- Witness for C1 on a concrete four-turn conversation. -/
theorem rec_extract_returns_last_assistant_witness :
    extract_last_assistant_message_spec
        [(⟨"user", "Hi"⟩ : Message), ⟨"assistant", "Hello!"⟩,
          ⟨"user", "More"⟩, ⟨"assistant", "Sure."⟩] = some ⟨"assistant", "Sure."⟩
      ∧ rec_extract_assistant_messages
        [(⟨"user", "Hi"⟩ : Message), ⟨"assistant", "Hello!"⟩,
          ⟨"user", "More"⟩, ⟨"assistant", "Sure."⟩] (-1) = .ok [⟨"assistant", "Sure."⟩] :=
  ⟨by decide, rec_extract_returns_last_assistant _ _ (by decide)⟩

/-- Claim C2, counterexample: on a conversation with no assistant message
the code does not fail with the spec's `MalformedConversationError`; it
exhausts the sequence and raises Python's out-of-bounds `IndexError`
(`messages[-2]` on a one-element list). -/
theorem no_assistant_malformed_error_counterexample :
    rec_extract_assistant_messages [(⟨"user", "Hi"⟩ : Message)] (-1) = .error .indexError
      ∧ rec_extract_assistant_messages [(⟨"user", "Hi"⟩ : Message)] (-1) ≠
        .error .malformedConversationError := by
  constructor
  · rfl
  · intro h
    cases h

/-- Claim C2 as amended: for every conversation containing zero
assistant-authored messages, the call to `rec_extract_assistant_messages`
fails with an out-of-bounds `IndexError` (not with the named
`MalformedConversationError` the spec prescribes for a reimplementation). -/
theorem no_assistant_raises_index_error (messages : List Message)
    (h : ∀ m ∈ messages, m.role ≠ "assistant") :
    rec_extract_assistant_messages messages (-1) = .error .indexError := by
  have hf : extract_last_assistant_message_spec messages = none := by
    unfold extract_last_assistant_message_spec
    rw [List.find?_eq_none]
    intro x hx
    simpa using h x (List.mem_reverse.mp hx)
  rw [rec_extract_eq_find, hf]

/-- Witness for the amended C2 on a concrete assistant-free conversation. -/
theorem no_assistant_raises_index_error_witness :
    rec_extract_assistant_messages
      [(⟨"user", "Hi"⟩ : Message), ⟨"user", "Anyone?"⟩] (-1) = .error .indexError :=
  no_assistant_raises_index_error _ (by decide)

/-- Claim C9: for every conversation with at least one assistant message,
the backward scan completes successfully.  The recursion is embedded as a
total Lean function (the decreasing fuel is the number of positions the
Python index has left before going out of bounds), so every invocation
terminates; under the precondition it moreover never reaches the
out-of-bounds case and returns an assistant message. -/
theorem rec_extract_terminates_with_assistant (messages : List Message)
    (h : ∃ m ∈ messages, m.role = "assistant") :
    ∃ m, rec_extract_assistant_messages messages (-1) = .ok [m] := by
  have hs : (messages.reverse.find? (fun m => m.role == "assistant")).isSome := by
    rw [List.find?_isSome]
    obtain ⟨m, hm, hr⟩ := h
    exact ⟨m, List.mem_reverse.mpr hm, by simpa using hr⟩
  obtain ⟨m, hm⟩ := Option.isSome_iff_exists.mp hs
  refine ⟨m, ?_⟩
  rw [rec_extract_eq_find]
  unfold extract_last_assistant_message_spec
  rw [hm]

/-- Witness for C9 on a concrete conversation. -/
theorem rec_extract_terminates_with_assistant_witness :
    ∃ m, rec_extract_assistant_messages
      [(⟨"system", "Be terse."⟩ : Message), ⟨"user", "Hi"⟩, ⟨"assistant", "Hello!"⟩]
      (-1) = .ok [m] :=
  rec_extract_terminates_with_assistant _ (by decide)

/-- The extractor only fails with `IndexError`: it can never produce the
spec's named errors. -/
theorem rec_extract_error_shape (messages : List Message) (e : DataErr)
    (h : rec_extract_assistant_messages messages (-1) = .error e) :
    e = .indexError := by
  rw [rec_extract_eq_find] at h
  cases hf : extract_last_assistant_message_spec messages with
  | none => rw [hf] at h; cases h; rfl
  | some m => rw [hf] at h; cases h

/-- `create_triplets` only fails with the Python exceptions `KeyError`
(on "chosen" or "rejected") or `IndexError`: it can never produce the
spec's named errors. -/
theorem create_triplets_error_shape (ex : Example) (d : String) (e : DataErr)
    (h : create_triplets ex d = .error e) :
    e = .keyError "chosen" ∨ e = .indexError ∨ e = .keyError "rejected" := by
  unfold create_triplets at h
  cases hch : ex.chosen? with
  | none =>
    rw [hch] at h
    simp only [pyGetKey] at h
    cases h
    exact Or.inl rfl
  | some cs =>
    rw [hch] at h
    simp only [pyGetKey] at h
    rw [pyIndex_zero] at h
    cases hc0 : cs.head? with
    | none =>
      rw [hc0] at h
      cases h
      exact Or.inr (Or.inl rfl)
    | some c0 =>
      rw [hc0] at h
      cases hce : rec_extract_assistant_messages cs (-1) with
      | error e2 =>
        rw [hce] at h
        cases h
        exact Or.inr (Or.inl (rec_extract_error_shape _ _ hce))
      | ok cms =>
        rw [hce] at h
        cases hrj : ex.rejected? with
        | none =>
          rw [hrj] at h
          simp only [pyGetKey] at h
          cases h
          exact Or.inr (Or.inr rfl)
        | some rs =>
          rw [hrj] at h
          simp only [pyGetKey] at h
          cases hre : rec_extract_assistant_messages rs (-1) with
          | error e2 =>
            rw [hre] at h
            cases h
            exact Or.inr (Or.inl (rec_extract_error_shape _ _ hre))
          | ok rms =>
            rw [hre] at h
            cases h

/-- On the empty conversation the extractor fails immediately: the initial
access `messages[-1]` is already out of bounds. -/
theorem rec_extract_nil : rec_extract_assistant_messages [] (-1) = .error .indexError :=
  rfl

/-- A missing key or an empty conversation makes `create_triplets` fail
(with some error). -/
theorem create_triplets_fails_of_missing_or_empty (ex : Example) (d : String)
    (h : ex.chosen? = none ∨ ex.rejected? = none ∨ ex.chosen? = some [] ∨
      ex.rejected? = some []) :
    ∃ e, create_triplets ex d = .error e := by
  cases hres : create_triplets ex d with
  | error e => exact ⟨e, rfl⟩
  | ok t =>
    exfalso
    rw [create_triplets_ok_iff] at hres
    obtain ⟨cs, rs, c0, hch, hrj, hc0, hce, hre, _⟩ := hres
    rcases h with h | h | h | h
    · rw [hch] at h; cases h
    · rw [hrj] at h; cases h
    · rw [hch] at h
      injection h with h2
      subst h2
      cases hc0
    · rw [hrj] at h
      injection h with h2
      subst h2
      rw [rec_extract_nil] at hre
      cases hre

/-- Claim C3, counterexample: an example lacking the "chosen" key makes
`create_triplets` fail with Python's `KeyError`, not with the spec's named
`MissingFieldError`. -/
theorem missing_field_error_counterexample :
    create_triplets ⟨none, some [(⟨"assistant", "Hi."⟩ : Message)]⟩ "d" =
        .error (.keyError "chosen")
      ∧ create_triplets ⟨none, some [(⟨"assistant", "Hi."⟩ : Message)]⟩ "d" ≠
        .error .missingFieldError := by
  constructor
  · rfl
  · intro h
    cases h

/-- Claim C3 as amended: `create_triplets` fails whenever the example lacks
a "chosen" key, lacks a "rejected" key, or has an empty conversation under
either key — but with the Python exceptions `KeyError` or `IndexError`,
never with the spec's named `MissingFieldError` (nor
`MalformedConversationError`). -/
theorem missing_or_empty_fails_python_error (ex : Example) (d : String)
    (h : ex.chosen? = none ∨ ex.rejected? = none ∨ ex.chosen? = some [] ∨
      ex.rejected? = some []) :
    ∃ e, create_triplets ex d = .error e ∧ e ≠ .missingFieldError ∧
      e ≠ .malformedConversationError := by
  obtain ⟨e, he⟩ := create_triplets_fails_of_missing_or_empty ex d h
  refine ⟨e, he, ?_, ?_⟩ <;>
    rcases create_triplets_error_shape ex d e he with h1 | h1 | h1 <;>
      subst h1 <;> intro hc <;> cases hc

/-- Witness for the amended C3: an example whose chosen conversation is
empty. -/
theorem missing_or_empty_fails_python_error_witness :
    ∃ e, create_triplets ⟨some [], some [(⟨"assistant", "Hi."⟩ : Message)]⟩ "d" =
        .error e ∧ e ≠ .missingFieldError ∧ e ≠ .malformedConversationError :=
  missing_or_empty_fails_python_error _ _ (Or.inr (Or.inr (Or.inl rfl)))

/-- Claim C4: whenever the chosen conversation does not begin with a
system message and `create_triplets` returns, the returned prompt is
exactly one synthesized system message carrying the default text, followed
by all messages of the chosen conversation except its last.  (Equality
with the cons means exactly one system message is prepended, never more.) -/
theorem prompt_prepends_default_system (ex : Example) (d : String) (t : Triplet)
    (c0 : Message) (rest : List Message)
    (hch : ex.chosen? = some (c0 :: rest)) (hrole : c0.role ≠ "system")
    (hok : create_triplets ex d = .ok t) :
    t.prompt = (⟨"system", d⟩ : Message) :: (c0 :: rest).dropLast := by
  rw [create_triplets_ok_iff] at hok
  obtain ⟨cs, rs, c1, hch2, hrj, hc0, hce, hre, hp⟩ := hok
  rw [hch] at hch2
  injection hch2 with h2
  subst h2
  rw [List.head?_cons] at hc0
  injection hc0 with h3
  subst h3
  rw [hp, if_pos hrole]

/-- Witness for C4, the spec's first scenario: chosen `[user Hi,
assistant Hello!]` with default text "You are an assistant." yields the
prompt `[system default, user Hi]`. -/
theorem prompt_prepends_default_system_witness :
    create_triplets
        ⟨some [(⟨"user", "Hi"⟩ : Message), ⟨"assistant", "Hello!"⟩],
          some [(⟨"user", "Hi"⟩ : Message), ⟨"assistant", "Hi."⟩]⟩
        "You are an assistant." =
      .ok ⟨[⟨"system", "You are an assistant."⟩, ⟨"user", "Hi"⟩],
        [⟨"assistant", "Hello!"⟩], [⟨"assistant", "Hi."⟩]⟩
    ∧ Triplet.prompt ⟨[⟨"system", "You are an assistant."⟩, ⟨"user", "Hi"⟩],
          [⟨"assistant", "Hello!"⟩], [⟨"assistant", "Hi."⟩]⟩ =
        (⟨"system", "You are an assistant."⟩ : Message) ::
          ([(⟨"user", "Hi"⟩ : Message), ⟨"assistant", "Hello!"⟩]).dropLast :=
  ⟨rfl,
    prompt_prepends_default_system
      ⟨some [(⟨"user", "Hi"⟩ : Message), ⟨"assistant", "Hello!"⟩],
        some [(⟨"user", "Hi"⟩ : Message), ⟨"assistant", "Hi."⟩]⟩
      "You are an assistant."
      ⟨[⟨"system", "You are an assistant."⟩, ⟨"user", "Hi"⟩],
        [⟨"assistant", "Hello!"⟩], [⟨"assistant", "Hi."⟩]⟩
      ⟨"user", "Hi"⟩ [⟨"assistant", "Hello!"⟩] rfl (by decide) rfl⟩

/-- Claim C5: whenever the chosen conversation begins with a system
message and `create_triplets` returns, the returned prompt is the chosen
conversation minus its final message — so it begins with that exact
original system message, unchanged, with no default message inserted and
no duplication. -/
theorem prompt_keeps_original_system (ex : Example) (d : String) (t : Triplet)
    (c0 : Message) (rest : List Message)
    (hch : ex.chosen? = some (c0 :: rest)) (hrole : c0.role = "system")
    (hok : create_triplets ex d = .ok t) :
    t.prompt = (c0 :: rest).dropLast ∧ t.prompt.head? = some c0 := by
  rw [create_triplets_ok_iff] at hok
  obtain ⟨cs, rs, c1, hch2, hrj, hc0, hce, hre, hp⟩ := hok
  rw [hch] at hch2
  injection hch2 with h2
  subst h2
  rw [List.head?_cons] at hc0
  injection hc0 with h3
  subst h3
  have hpe : t.prompt = (c0 :: rest).dropLast := by
    rw [hp, if_neg (not_not_intro hrole)]
  have hne : rest ≠ [] := by
    intro hrest
    subst hrest
    obtain ⟨m, hm, hr⟩ := exists_assistant_of_rec_extract_ok _ _ hce
    simp only [List.mem_singleton] at hm
    subst hm
    rw [hrole] at hr
    exact absurd hr (by decide)
  refine ⟨hpe, ?_⟩
  rw [hpe]
  cases rest with
  | nil => exact absurd rfl hne
  | cons r1 rest2 => rfl

/-- Witness for C5, the spec's second scenario: a chosen conversation
starting with `{system, "Be terse."}` keeps exactly that system message. -/
theorem prompt_keeps_original_system_witness :
    create_triplets
        ⟨some [(⟨"system", "Be terse."⟩ : Message), ⟨"user", "Hi"⟩, ⟨"assistant", "Hello!"⟩],
          some [(⟨"system", "Be terse."⟩ : Message), ⟨"user", "Hi"⟩, ⟨"assistant", "Hi."⟩]⟩
        "You are an assistant." =
      .ok ⟨[⟨"system", "Be terse."⟩, ⟨"user", "Hi"⟩],
        [⟨"assistant", "Hello!"⟩], [⟨"assistant", "Hi."⟩]⟩
    ∧ Triplet.prompt ⟨[⟨"system", "Be terse."⟩, ⟨"user", "Hi"⟩],
          [⟨"assistant", "Hello!"⟩], [⟨"assistant", "Hi."⟩]⟩ =
        ([(⟨"system", "Be terse."⟩ : Message), ⟨"user", "Hi"⟩,
          ⟨"assistant", "Hello!"⟩]).dropLast
    ∧ (Triplet.prompt ⟨[⟨"system", "Be terse."⟩, ⟨"user", "Hi"⟩],
          [⟨"assistant", "Hello!"⟩], [⟨"assistant", "Hi."⟩]⟩).head? =
        some ⟨"system", "Be terse."⟩ := by
  refine ⟨rfl, ?_, ?_⟩
  · exact (prompt_keeps_original_system
      ⟨some [(⟨"system", "Be terse."⟩ : Message), ⟨"user", "Hi"⟩, ⟨"assistant", "Hello!"⟩],
        some [(⟨"system", "Be terse."⟩ : Message), ⟨"user", "Hi"⟩, ⟨"assistant", "Hi."⟩]⟩
      "You are an assistant."
      ⟨[⟨"system", "Be terse."⟩, ⟨"user", "Hi"⟩],
        [⟨"assistant", "Hello!"⟩], [⟨"assistant", "Hi."⟩]⟩
      ⟨"system", "Be terse."⟩ [⟨"user", "Hi"⟩, ⟨"assistant", "Hello!"⟩]
      rfl (by decide) rfl).1
  · exact (prompt_keeps_original_system
      ⟨some [(⟨"system", "Be terse."⟩ : Message), ⟨"user", "Hi"⟩, ⟨"assistant", "Hello!"⟩],
        some [(⟨"system", "Be terse."⟩ : Message), ⟨"user", "Hi"⟩, ⟨"assistant", "Hi."⟩]⟩
      "You are an assistant."
      ⟨[⟨"system", "Be terse."⟩, ⟨"user", "Hi"⟩],
        [⟨"assistant", "Hello!"⟩], [⟨"assistant", "Hi."⟩]⟩
      ⟨"system", "Be terse."⟩ [⟨"user", "Hi"⟩, ⟨"assistant", "Hello!"⟩]
      rfl (by decide) rfl).2

/-- Claim C10: whenever the chosen conversation is a single message whose
role is not "system" and `create_triplets` returns, the returned prompt is
exactly the one synthesized default system message: the code tests the
role of the first message of the whole chosen conversation, not of the
truncated prompt, so the otherwise-empty prompt still receives it. -/
theorem singleton_chosen_prompt_is_default (ex : Example) (d : String) (t : Triplet)
    (m : Message) (hch : ex.chosen? = some [m]) (hrole : m.role ≠ "system")
    (hok : create_triplets ex d = .ok t) :
    t.prompt = [(⟨"system", d⟩ : Message)] := by
  rw [create_triplets_ok_iff] at hok
  obtain ⟨cs, rs, c1, hch2, hrj, hc0, hce, hre, hp⟩ := hok
  rw [hch] at hch2
  injection hch2 with h2
  subst h2
  rw [List.head?_cons] at hc0
  injection hc0 with h3
  subst h3
  rw [hp, if_pos hrole]
  rfl

/-- Witness for C10: a one-message chosen conversation `[assistant Hello!]`
produces the prompt `[system default]`. -/
theorem singleton_chosen_prompt_is_default_witness :
    create_triplets
        ⟨some [(⟨"assistant", "Hello!"⟩ : Message)],
          some [(⟨"assistant", "Hi."⟩ : Message)]⟩ "You are an assistant." =
      .ok ⟨[⟨"system", "You are an assistant."⟩],
        [⟨"assistant", "Hello!"⟩], [⟨"assistant", "Hi."⟩]⟩
    ∧ Triplet.prompt ⟨[⟨"system", "You are an assistant."⟩],
          [⟨"assistant", "Hello!"⟩], [⟨"assistant", "Hi."⟩]⟩ =
        [(⟨"system", "You are an assistant."⟩ : Message)] :=
  ⟨rfl,
    singleton_chosen_prompt_is_default
      ⟨some [(⟨"assistant", "Hello!"⟩ : Message)],
        some [(⟨"assistant", "Hi."⟩ : Message)]⟩ "You are an assistant."
      ⟨[⟨"system", "You are an assistant."⟩],
        [⟨"assistant", "Hello!"⟩], [⟨"assistant", "Hi."⟩]⟩
      ⟨"assistant", "Hello!"⟩ rfl (by decide) rfl⟩

/-- Claim C6, counterexample: under message (value) equality the prompt CAN
contain the final assistant message of a branch.  Both branches here end in
an assistant turn and share the same leading turns (roles alternate), yet
the chosen branch's final message `{assistant, ok}` also occurs among the
leading turns, so the returned prompt contains it. -/
theorem prompt_contains_repeated_final_counterexample :
    create_triplets
        ⟨some [(⟨"user", "Hi"⟩ : Message), ⟨"assistant", "ok"⟩,
            ⟨"user", "Hi"⟩, ⟨"assistant", "ok"⟩],
          some [(⟨"user", "Hi"⟩ : Message), ⟨"assistant", "ok"⟩,
            ⟨"user", "Hi"⟩, ⟨"assistant", "no"⟩]⟩
        "You are an assistant." =
      .ok ⟨[⟨"system", "You are an assistant."⟩, ⟨"user", "Hi"⟩,
            ⟨"assistant", "ok"⟩, ⟨"user", "Hi"⟩],
          [⟨"assistant", "ok"⟩], [⟨"assistant", "no"⟩]⟩
    ∧ (⟨"assistant", "ok"⟩ : Message) ∈
        [(⟨"system", "You are an assistant."⟩ : Message), ⟨"user", "Hi"⟩,
          ⟨"assistant", "ok"⟩, ⟨"user", "Hi"⟩] := by
  exact ⟨rfl, by decide⟩

/-- Claim C6 as amended: for every labeled example satisfying the
data-model constraints (both branches end in an assistant message and
share the same leading turns) in which neither branch's final assistant
message also occurs among the leading turns, the prompt returned by
`create_triplets` contains neither final assistant message.  (In general
the prompt only excludes the final position of the chosen branch; a
value-equal repeat of the final message among the leading turns stays.) -/
theorem prompt_excludes_final_turns (P : List Message) (c r : Message) (d : String)
    (hc : c.role = "assistant") (hr : r.role = "assistant")
    (hcP : c ∉ P) (hrP : r ∉ P) :
    ∃ t, create_triplets ⟨some (P ++ [c]), some (P ++ [r])⟩ d = .ok t ∧
      c ∉ t.prompt ∧ r ∉ t.prompt := by
  obtain ⟨c0, hc0⟩ : ∃ c0, (P ++ [c]).head? = some c0 := by
    cases P with
    | nil => exact ⟨c, rfl⟩
    | cons p0 P2 => exact ⟨p0, rfl⟩
  have hce : rec_extract_assistant_messages (P ++ [c]) (-1) = .ok [c] :=
    rec_extract_getLast _ _ (List.getLast?_concat P) hc
  have hre : rec_extract_assistant_messages (P ++ [r]) (-1) = .ok [r] :=
    rec_extract_getLast _ _ (List.getLast?_concat P) hr
  have hsys : c ≠ (⟨"system", d⟩ : Message) := by
    intro hcs
    have h2 : c.role = "system" := by rw [hcs]
    rw [hc] at h2
    exact absurd h2 (by decide)
  have hsysr : r ≠ (⟨"system", d⟩ : Message) := by
    intro hrs
    have h2 : r.role = "system" := by rw [hrs]
    rw [hr] at h2
    exact absurd h2 (by decide)
  refine ⟨⟨if c0.role ≠ "system" then (⟨"system", d⟩ : Message) :: P else P, [c], [r]⟩,
    ?_, ?_, ?_⟩
  · rw [create_triplets_ok_iff]
    refine ⟨P ++ [c], P ++ [r], c0, rfl, rfl, hc0, hce, hre, ?_⟩
    dsimp only
    rw [List.dropLast_concat]
  · dsimp only
    split
    · intro hmem
      rcases List.mem_cons.mp hmem with h1 | h1
      · exact hsys h1
      · exact hcP h1
    · exact hcP
  · dsimp only
    split
    · intro hmem
      rcases List.mem_cons.mp hmem with h1 | h1
      · exact hsysr h1
      · exact hrP h1
    · exact hrP

/-- Witness for the amended C6 on the spec's first scenario. -/
theorem prompt_excludes_final_turns_witness :
    (⟨"assistant", "Hello!"⟩ : Message).role = "assistant"
    ∧ ∃ t, create_triplets
        ⟨some ([(⟨"user", "Hi"⟩ : Message)] ++ [⟨"assistant", "Hello!"⟩]),
          some ([(⟨"user", "Hi"⟩ : Message)] ++ [⟨"assistant", "Hi."⟩])⟩
        "You are an assistant." = .ok t ∧
      (⟨"assistant", "Hello!"⟩ : Message) ∉ t.prompt ∧
      (⟨"assistant", "Hi."⟩ : Message) ∉ t.prompt :=
  ⟨rfl, prompt_excludes_final_turns [⟨"user", "Hi"⟩] ⟨"assistant", "Hello!"⟩
    ⟨"assistant", "Hi."⟩ "You are an assistant." rfl rfl (by decide) (by decide)⟩

/-- Claim C7: for every valid labeled example (each branch is leading turns
followed by a final assistant message), concatenating the prompt returned
by `create_triplets` with the returned chosen message reconstructs the
chosen branch structure: re-running the extraction on prompt + chosen
yields the chosen message back, and re-running `create_triplets` itself on
prompt + chosen (and prompt + rejected) returns the very same triplet. -/
theorem triplet_reconstructs_chosen (ex : Example) (d : String)
    (P Q : List Message) (c r : Message)
    (hch : ex.chosen? = some (P ++ [c])) (hrj : ex.rejected? = some (Q ++ [r]))
    (hc : c.role = "assistant") (hr : r.role = "assistant") :
    ∃ t, create_triplets ex d = .ok t ∧
      rec_extract_assistant_messages (t.prompt ++ t.chosen) (-1) = .ok t.chosen ∧
      create_triplets ⟨some (t.prompt ++ t.chosen), some (t.prompt ++ t.rejected)⟩ d
        = .ok t := by
  have hce : rec_extract_assistant_messages (P ++ [c]) (-1) = .ok [c] :=
    rec_extract_getLast _ _ (List.getLast?_concat P) hc
  obtain ⟨c0, hc0⟩ : ∃ c0, (P ++ [c]).head? = some c0 := by
    cases P with
    | nil => exact ⟨c, rfl⟩
    | cons p0 P2 => exact ⟨p0, rfl⟩
  by_cases hsys : c0.role = "system"
  · cases P with
    | nil =>
      exfalso
      simp only [List.nil_append, List.head?_cons] at hc0
      injection hc0 with h2
      subst h2
      rw [hc] at hsys
      exact absurd hsys (by decide)
    | cons p0 P2 =>
      have hp0 : p0.role = "system" := by
        simp only [List.cons_append, List.head?_cons] at hc0
        injection hc0 with h2
        rw [h2]
        exact hsys
      refine ⟨⟨p0 :: P2, [c], [r]⟩, ?_, ?_, ?_⟩
      · rw [create_triplets_ok_iff]
        refine ⟨(p0 :: P2) ++ [c], Q ++ [r], p0, hch, hrj, rfl, hce,
          rec_extract_getLast _ _ (List.getLast?_concat Q) hr, ?_⟩
        dsimp only
        rw [if_neg (not_not_intro hp0), List.dropLast_concat]
      · dsimp only
        exact rec_extract_getLast _ _ (List.getLast?_concat _) hc
      · dsimp only
        rw [create_triplets_ok_iff]
        refine ⟨(p0 :: P2) ++ [c], (p0 :: P2) ++ [r], p0, rfl, rfl, rfl,
          rec_extract_getLast _ _ (List.getLast?_concat _) hc,
          rec_extract_getLast _ _ (List.getLast?_concat _) hr, ?_⟩
        dsimp only
        rw [if_neg (not_not_intro hp0), List.dropLast_concat]
  · refine ⟨⟨(⟨"system", d⟩ : Message) :: P, [c], [r]⟩, ?_, ?_, ?_⟩
    · rw [create_triplets_ok_iff]
      refine ⟨P ++ [c], Q ++ [r], c0, hch, hrj, hc0, hce,
        rec_extract_getLast _ _ (List.getLast?_concat Q) hr, ?_⟩
      dsimp only
      rw [if_pos hsys, List.dropLast_concat]
    · dsimp only
      exact rec_extract_getLast _ _ (List.getLast?_concat _) hc
    · dsimp only
      rw [create_triplets_ok_iff]
      refine ⟨((⟨"system", d⟩ : Message) :: P) ++ [c],
        ((⟨"system", d⟩ : Message) :: P) ++ [r], ⟨"system", d⟩, rfl, rfl, rfl,
        rec_extract_getLast _ _ (List.getLast?_concat _) hc,
        rec_extract_getLast _ _ (List.getLast?_concat _) hr, ?_⟩
      dsimp only
      rw [if_neg (not_not_intro rfl), List.dropLast_concat]

/-- Witness for C7 on the spec's first scenario. -/
theorem triplet_reconstructs_chosen_witness :
    ∃ t, create_triplets
        ⟨some ([(⟨"user", "Hi"⟩ : Message)] ++ [⟨"assistant", "Hello!"⟩]),
          some ([(⟨"user", "Hi"⟩ : Message)] ++ [⟨"assistant", "Hi."⟩])⟩
        "You are an assistant." = .ok t ∧
      rec_extract_assistant_messages (t.prompt ++ t.chosen) (-1) = .ok t.chosen ∧
      create_triplets ⟨some (t.prompt ++ t.chosen), some (t.prompt ++ t.rejected)⟩
        "You are an assistant." = .ok t :=
  triplet_reconstructs_chosen
    ⟨some ([(⟨"user", "Hi"⟩ : Message)] ++ [⟨"assistant", "Hello!"⟩]),
      some ([(⟨"user", "Hi"⟩ : Message)] ++ [⟨"assistant", "Hi."⟩])⟩
    "You are an assistant." [⟨"user", "Hi"⟩] [⟨"user", "Hi"⟩]
    ⟨"assistant", "Hello!"⟩ ⟨"assistant", "Hi."⟩ rfl rfl rfl rfl

/-- Reading any cell other than the freshly allocated one is unchanged by
allocation. -/
theorem Store.read_alloc_ne (s : Store) (v : List Message) (x : Nat)
    (hx : x ≠ s.next) : (s.alloc v).1.read x = s.read x := by
  simp only [Store.alloc, Store.read]
  rw [if_neg hx]

/-- Reading a live cell (below `next`) is unchanged by allocation. -/
theorem Store.read_alloc_lt (s : Store) (v : List Message) (x : Nat)
    (hx : x < s.next) : (s.alloc v).1.read x = s.read x :=
  Store.read_alloc_ne s v x (Nat.ne_of_lt hx)

/-- The freshly allocated cell holds the allocated value. -/
theorem Store.read_alloc_self (s : Store) (v : List Message) :
    (s.alloc v).1.read (s.alloc v).2 = v := by
  simp [Store.alloc, Store.read]

/-- Writing the freshly allocated cell does not change any other cell. -/
theorem Store.read_write_alloc_ne (s : Store) (v w : List Message) (x : Nat)
    (hx : x ≠ s.next) : ((s.alloc v).1.write (s.alloc v).2 w).read x = s.read x := by
  simp only [Store.alloc, Store.write, Store.read]
  rw [if_neg hx, if_neg hx]

/-- Writing the freshly allocated cell does not change any live cell. -/
theorem Store.read_write_alloc_lt (s : Store) (v w : List Message) (x : Nat)
    (hx : x < s.next) : ((s.alloc v).1.write (s.alloc v).2 w).read x = s.read x :=
  Store.read_write_alloc_ne s v w x (Nat.ne_of_lt hx)

/-- After writing the freshly allocated cell, reading it yields the written
value. -/
theorem Store.read_write_alloc_self (s : Store) (v w : List Message) :
    ((s.alloc v).1.write (s.alloc v).2 w).read (s.alloc v).2 = w := by
  simp [Store.alloc, Store.write, Store.read]

/-- Claim C8: `create_triplets` is deterministic and effect-free.  Running
the stateful rendering on any store (first conjunct) returns exactly the
value of the pure function of the referenced conversations and the default
text — so the result depends only on the argument values, and two runs on
identical input are identical — and (second conjunct) leaves every
pre-existing cell of the store untouched: the only mutation is the
`insert(0, ...)` on the freshly allocated slice, which no caller can
observe. -/
theorem create_triplets_pure_and_mutation_free (s0 : Store)
    (chosenRef rejectedRef : Option Nat) (d : String)
    (hc : ∀ n, chosenRef = some n → n < s0.next)
    (hr : ∀ n, rejectedRef = some n → n < s0.next) :
    (create_triplets_state s0 chosenRef rejectedRef d).1 =
        create_triplets ⟨chosenRef.map s0.read, rejectedRef.map s0.read⟩ d
      ∧ ∀ n, n < s0.next →
        ((create_triplets_state s0 chosenRef rejectedRef d).2).read n = s0.read n := by
  cases chosenRef with
  | none => exact ⟨rfl, fun n hn => rfl⟩
  | some cr =>
    have hcr : cr ≠ s0.next := Nat.ne_of_lt (hc cr rfl)
    have hread1 : (s0.alloc ((s0.read cr).dropLast)).1.read cr = s0.read cr :=
      Store.read_alloc_ne _ _ _ hcr
    unfold create_triplets_state create_triplets
    dsimp only
    simp only [hread1, Option.map_some', pyGetKey]
    rw [pyGet_zero, pyIndex_zero]
    cases hh : (s0.read cr).head? with
    | none => exact ⟨rfl, fun n hn => Store.read_alloc_lt _ _ _ hn⟩
    | some first =>
      dsimp only
      by_cases hrole : first.role = "system"
      · simp only [if_neg (not_not_intro hrole)]
        simp only [hread1, Store.read_alloc_self]
        cases hce : rec_extract_assistant_messages (s0.read cr) (-1) with
        | error e => exact ⟨rfl, fun n hn => Store.read_alloc_lt _ _ _ hn⟩
        | ok cms =>
          cases rejectedRef with
          | none => exact ⟨rfl, fun n hn => Store.read_alloc_lt _ _ _ hn⟩
          | some rr =>
            have hrr : rr ≠ s0.next := Nat.ne_of_lt (hr rr rfl)
            simp only [Option.map_some', pyGetKey,
              Store.read_alloc_ne _ _ _ hrr]
            cases hre : rec_extract_assistant_messages (s0.read rr) (-1) with
            | error e => exact ⟨rfl, fun n hn => Store.read_alloc_lt _ _ _ hn⟩
            | ok rms => exact ⟨rfl, fun n hn => Store.read_alloc_lt _ _ _ hn⟩
      · simp only [if_pos hrole]
        simp only [Store.read_alloc_self,
          Store.read_write_alloc_ne _ _ _ _ hcr, Store.read_write_alloc_self]
        cases hce : rec_extract_assistant_messages (s0.read cr) (-1) with
        | error e => exact ⟨rfl, fun n hn => Store.read_write_alloc_lt _ _ _ _ hn⟩
        | ok cms =>
          cases rejectedRef with
          | none => exact ⟨rfl, fun n hn => Store.read_write_alloc_lt _ _ _ _ hn⟩
          | some rr =>
            have hrr : rr ≠ s0.next := Nat.ne_of_lt (hr rr rfl)
            simp only [Option.map_some', pyGetKey,
              Store.read_write_alloc_ne _ _ _ _ hrr]
            cases hre : rec_extract_assistant_messages (s0.read rr) (-1) with
            | error e =>
              exact ⟨rfl, fun n hn => Store.read_write_alloc_lt _ _ _ _ hn⟩
            | ok rms =>
              exact ⟨rfl, fun n hn => Store.read_write_alloc_lt _ _ _ _ hn⟩

/-- A concrete two-cell store holding the spec's first-scenario example. -/
def sampleStore : Store :=
  ⟨fun n => if n = 0 then [⟨"user", "Hi"⟩, ⟨"assistant", "Hello!"⟩]
    else if n = 1 then [⟨"user", "Hi"⟩, ⟨"assistant", "Hi."⟩] else [], 2⟩

/-- Witness for C8 on the concrete store. -/
theorem create_triplets_pure_and_mutation_free_witness :
    (create_triplets_state sampleStore (some 0) (some 1) "d").1 =
        create_triplets ⟨(some 0).map sampleStore.read, (some 1).map sampleStore.read⟩ "d"
      ∧ ∀ n, n < sampleStore.next →
        ((create_triplets_state sampleStore (some 0) (some 1) "d").2).read n =
          sampleStore.read n :=
  create_triplets_pure_and_mutation_free sampleStore (some 0) (some 1) "d"
    (fun n h => by injection h with h2; rw [← h2]; decide)
    (fun n h => by injection h with h2; rw [← h2]; decide)
